import Mathlib

/-!
Shallow embedding of `src/main.py` (Telegram-to-Dailymotion relay bot) and
verification of the specification's claims about it.

The embedding models:
- Python string operations at character level (`startswith`, `endswith`,
  substring membership, slicing, truthiness, f-string rendering of `None`);
- `DailymotionUploader` (`authenticate`, `upload_video`) as explicit state
  passing over an environment describing the remote service's responses,
  with a trace counting token-endpoint, create and transfer calls;
- `safe_send_message` as a bounded retry loop over per-attempt transport
  outcomes, collecting the sleep durations it performs;
- `handle_media` as a total function over an environment giving the outcome
  of every external call site, tracking scratch-file lifetime, which
  notifications were delivered, and the terminal behaviour.

External I/O that cannot fail in an interesting way for the claims
(tempfile creation, `os.path.getsize` on a just-written file, `os.unlink`
on an existing file) is modelled as succeeding; the code logs and swallows
`os.unlink` errors, which the cleanup claims treat as successful deletion.
-/

namespace TgRelay

/-- Boolean test that the first character list is a prefix of the second. -/
def strPre : List Char → List Char → Bool
  | [], _ => true
  | _ :: _, [] => false
  | a :: as, b :: bs => a == b && strPre as bs

/-- Boolean test that the first character list occurs contiguously inside the second. -/
def strSub (p : List Char) : List Char → Bool
  | [] => strPre p []
  | c :: cs => strPre p (c :: cs) || strSub p cs

/-- Python `s.startswith(p)` at character level. -/
def pyStartsWith (s p : String) : Bool := strPre p.data s.data

/-- Python `s.endswith(p)` at character level. -/
def pyEndsWith (s p : String) : Bool := strPre p.data.reverse s.data.reverse

/-- Python `sub in hay` for strings. -/
def pyContains (hay sub : String) : Bool := strSub sub.data hay.data

/-- Python `s[:n]` slicing by characters. -/
def pySlice (n : Nat) (s : String) : String := String.mk (s.data.take n)

/-- Python truthiness of an optional string: `None` and the empty string are falsy. -/
def pyTruthy : Option String → Bool
  | none => false
  | some s => !(s == "")

/-- Python f-string rendering of an optional string: `None` renders as the text "None". -/
def pyFmt : Option String → String
  | none => "None"
  | some s => s

/-! ### DailymotionUploader (src/main.py lines 53-122) -/

/-- State of the shared `DailymotionUploader` instance: the cached
`self.access_token` (line 55), `None` until an authentication succeeds. -/
structure UploaderState where
  access_token : Option String
deriving Repr, DecidableEq

/-- Outcome of one POST to the token endpoint (`authenticate`, lines 58-76):
either an HTTP 2xx whose JSON may or may not carry an `access_token` field,
or any exception (network error or `raise_for_status`). -/
inductive AuthResult
  | success (tok : Option String)
  | failure (msg : String)
deriving Repr, DecidableEq

/-- Outcome of the create-phase POST to `/me/videos` (lines 95-104): a 2xx
response with optional JSON fields `id` and `url`, an authorization-failure
exception (401/403 from `raise_for_status`), or any other exception. -/
inductive CreateResult
  | response (vid url : Option String)
  | authError (msg : String)
  | otherError (msg : String)
deriving Repr, DecidableEq

/-- Outcome of the transfer-phase PUT to the upload URL (lines 111-117). -/
inductive TransferResult
  | success
  | authError (msg : String)
  | otherError (msg : String)
deriving Repr, DecidableEq

/-- Responses the destination service gives to one `upload_video` call. -/
structure UploadEnv where
  auth : AuthResult
  create : CreateResult
  transfer : TransferResult
deriving Repr, DecidableEq

/-- Trace of the remote calls one `upload_video` call performed, and the
title string it sent in the create-phase request (if that request was made). -/
structure UploadTrace where
  tokenCalls : Nat
  createCalls : Nat
  transferCalls : Nat
  sentTitle : Option String
deriving Repr, DecidableEq

/-- Result of one `upload_video` call: the returned value (`None` on any
failure, the public URL on success), the uploader state afterwards, and the
trace of remote calls. -/
structure UploadOutcome where
  result : Option String
  state : UploaderState
  trace : UploadTrace
deriving Repr, DecidableEq

/-- `DailymotionUploader.authenticate` (lines 58-76): on a 2xx response it
stores `response.json().get("access_token")` (possibly `None`) and returns
`True`; on any exception it returns `False` and leaves the state unchanged. -/
def authenticate (s : UploaderState) (r : AuthResult) : Bool × UploaderState :=
  match r with
  | .success tok => (true, { access_token := tok })
  | .failure _ => (false, s)

/-- Body of `upload_video` after the credential check (lines 83-122):
create phase with `title[:255]`, then — only if the response's `url` field
is truthy — the transfer PUT; any exception is caught by the enclosing
`except` and yields `None`. `tc` is the number of token-endpoint calls
already made in this `upload_video` invocation. -/
def upload_video_body (s : UploaderState) (env : UploadEnv) (title : String)
    (tc : Nat) : UploadOutcome :=
  let sent := pySlice 255 title
  match env.create with
  | .authError _ => ⟨none, s, ⟨tc, 1, 0, some sent⟩⟩
  | .otherError _ => ⟨none, s, ⟨tc, 1, 0, some sent⟩⟩
  | .response vid url =>
    if pyTruthy url then
      match env.transfer with
      | .success =>
        ⟨some ("https://www.dailymotion.com/video/" ++ pyFmt vid), s,
          ⟨tc, 1, 1, some sent⟩⟩
      | .authError _ => ⟨none, s, ⟨tc, 1, 1, some sent⟩⟩
      | .otherError _ => ⟨none, s, ⟨tc, 1, 1, some sent⟩⟩
    else
      ⟨none, s, ⟨tc, 1, 0, some sent⟩⟩

/-- `DailymotionUploader.upload_video` (lines 78-122): if no truthy token is
cached, authenticate first and return `None` if that fails; then run the
two-phase upload body. There is no credential invalidation and no retry on
an authorization failure: every exception path returns `None` directly. -/
def upload_video (s : UploaderState) (env : UploadEnv) (title : String) :
    UploadOutcome :=
  if pyTruthy s.access_token then
    upload_video_body s env title 0
  else
    match authenticate s env.auth with
    | (false, s1) => ⟨none, s1, ⟨1, 0, 0, none⟩⟩
    | (true, s1) => upload_video_body s1 env title 1

/-! ### safe_send_message (src/main.py lines 126-146) -/

/-- Outcome of one `telegram_client.send_message` attempt: success, a
`FloodWait` carrying the mandatory wait in seconds, or an `RPCError`. -/
inductive AttemptRes
  | ok
  | flood (n : Nat)
  | rpc
deriving Repr, DecidableEq

/-- Overall behaviour of `safe_send_message`: returned a message, returned
`None` (attempts exhausted by flood waits), or raised the last `RPCError`. -/
inductive SendLoopRes
  | sent
  | nores
  | raised
deriving Repr, DecidableEq

/-- The retry loop of `safe_send_message`: `att i` is the outcome of attempt
`i`; the second component collects the sleep durations performed, in order.
On `FloodWait e` it sleeps `e.value + 2`; on `RPCError` it re-raises on the
last attempt and otherwise sleeps 1 second. -/
def sendGo (att : Nat → AttemptRes) : Nat → Nat → SendLoopRes × List Nat
  | _, 0 => (.nores, [])
  | i, rem + 1 =>
    match att i with
    | .ok => (.sent, [])
    | .flood n =>
      let p := sendGo att (i + 1) rem
      (p.1, (n + 2) :: p.2)
    | .rpc =>
      if rem = 0 then (.raised, [])
      else
        let p := sendGo att (i + 1) rem
        (p.1, 1 :: p.2)

/-- `safe_send_message` (lines 126-146) with `max_retries = 3`. -/
def safe_send_message (att : Nat → AttemptRes) : SendLoopRes × List Nat :=
  sendGo att 0 3

/-! ### handle_media (src/main.py lines 148-230) -/

/-- The fields of a Telegram document attachment the handler reads. -/
structure TgDocument where
  mime_type : String
  file_name : String
deriving Repr, DecidableEq

/-- The fields of an inbound message the handler reads: `message.document`
(`None` for a plain video attachment) and `message.caption`. -/
structure TgMessage where
  document : Option TgDocument
  caption : Option String
deriving Repr, DecidableEq

/-- The extensions accepted by the validation check (line 155). -/
def videoExts : List String := [".mp4", ".mkv", ".avi", ".mov"]

/-- The validation condition of lines 153-155: a message is rejected when it
carries a document whose MIME type does not start with "video/" and whose
file name ends with none of the known video extensions. A plain video
attachment (no document) is never rejected. -/
def isRejected (m : TgMessage) : Bool :=
  match m.document with
  | none => false
  | some d =>
    !(pyStartsWith d.mime_type "video/") &&
      !(videoExts.any fun ext => pyEndsWith d.file_name ext)

/-- Line 201, with Python conditional-expression precedence: the expression
parses as `(message.caption or file_name) if message.document else
"Uploaded from Telegram"`, so for a plain video message (document `None`)
the caption is never consulted. -/
def video_title (m : TgMessage) : String :=
  match m.document with
  | some d =>
    match m.caption with
    | some c => if c == "" then d.file_name else c
    | none => d.file_name
  | none => "Uploaded from Telegram"

/-- Behaviour of one `safe_send_message` call site inside `handle_media`:
it returns a message, returns `None`, or raises (carrying the exception
text seen by the outer `except` handler). -/
inductive SendRes
  | ok
  | nores
  | raised (msg : String)
deriving Repr, DecidableEq

/-- Behaviour of an external operation that either succeeds or raises. -/
inductive OpRes
  | ok
  | err (msg : String)
deriving Repr, DecidableEq

/-- Outcomes of every external call site `handle_media` can reach, in
source order: the rejection send (line 156), the initial status send
(line 164), `client.download_media` (line 180), the download-failure send
(line 187), the pre-upload `edit_text` (line 198), the destination-service
responses for `upload_video` (line 202), the success `edit_text`
(line 205), the upload-failure send (line 212), and the generic error send
in the `except` handler (line 220). -/
structure HandleEnv where
  rejectSend : SendRes
  statusSend : SendRes
  download : OpRes
  dlFailSend : SendRes
  editUploading : OpRes
  upload : UploadEnv
  editFinal : OpRes
  failSend : SendRes
  errorSend : SendRes
deriving Repr, DecidableEq

/-- Text of line 158. -/
def rejectText : String := "❌ Please send a video file (MP4, MKV, AVI, MOV)"

/-- Text of line 166. -/
def downloadingText : String := "📥 Downloading your video..."

/-- Text of line 189. -/
def dlFailText : String := "❌ Failed to download video"

/-- Text of line 198. -/
def uploadingText : String := "📤 Uploading to Dailymotion..."

/-- Text of line 214. -/
def upFailText : String := "❌ Failed to upload video to Dailymotion"

/-- The success message composed on lines 205-210. -/
def successText (title url : String) : String :=
  "✅ Upload Successful!\n\n📹 Title: " ++ title ++
    "\n🔗 [View on Dailymotion](" ++ url ++ ")\n\n⏳ Video is processing..."

/-- The generic error message of line 222. -/
def errorText (msg : String) : String := "❌ Error: " ++ msg

/-- How the body of the `try` block ends: a normal return, or an exception
propagating to the `except` handler of line 218. -/
inductive InnerExit
  | done
  | exc (msg : String)
deriving Repr, DecidableEq

/-- Result of the `try` block of `handle_media`: how it exited, whether the
scratch file was created and whether it still exists (the `finally` block
has not yet run), whether download and upload were attempted, the texts
delivered to the user so far (sends that returned a message and edits that
succeeded, in order), and the uploader state and upload trace. -/
structure InnerOut where
  exit : InnerExit
  tempCreated : Bool
  fsHasTemp : Bool
  downloadAttempted : Bool
  uploadAttempted : Bool
  delivered : List String
  uploader : UploaderState
  utrace : UploadTrace
deriving Repr, DecidableEq

/-- The empty upload trace, for paths on which `upload_video` is not called. -/
def emptyTrace : UploadTrace := ⟨0, 0, 0, none⟩

/-- The `try` block of `handle_media` (lines 151-216): validation, initial
status send (aborting with a plain `return` when it yields `None`,
lines 170-172), scratch-file creation (line 175), download with its local
failure handler (lines 179-192), the pre-upload edit, the upload, and the
final success edit or failure send. -/
def handle_media_try (m : TgMessage) (env : HandleEnv) (s : UploaderState) :
    InnerOut :=
  if isRejected m then
    match env.rejectSend with
    | .ok => ⟨.done, false, false, false, false, [rejectText], s, emptyTrace⟩
    | .nores => ⟨.done, false, false, false, false, [], s, emptyTrace⟩
    | .raised e => ⟨.exc e, false, false, false, false, [], s, emptyTrace⟩
  else
    match env.statusSend with
    | .raised e => ⟨.exc e, false, false, false, false, [], s, emptyTrace⟩
    | .nores => ⟨.done, false, false, false, false, [], s, emptyTrace⟩
    | .ok =>
      match env.download with
      | .err _ =>
        match env.dlFailSend with
        | .raised e =>
          ⟨.exc e, true, true, true, false, [downloadingText], s, emptyTrace⟩
        | .ok =>
          ⟨.done, true, true, true, false, [downloadingText, dlFailText], s,
            emptyTrace⟩
        | .nores =>
          ⟨.done, true, true, true, false, [downloadingText], s, emptyTrace⟩
      | .ok =>
        match env.editUploading with
        | .err e =>
          ⟨.exc e, true, true, true, false, [downloadingText], s, emptyTrace⟩
        | .ok =>
          let u := upload_video s env.upload (video_title m)
          if pyTruthy u.result then
            match env.editFinal with
            | .ok =>
              ⟨.done, true, true, true, true,
                [downloadingText, uploadingText,
                  successText (video_title m) (pyFmt u.result)],
                u.state, u.trace⟩
            | .err e =>
              ⟨.exc e, true, true, true, true,
                [downloadingText, uploadingText], u.state, u.trace⟩
          else
            match env.failSend with
            | .ok =>
              ⟨.done, true, true, true, true,
                [downloadingText, uploadingText, upFailText], u.state,
                u.trace⟩
            | .nores =>
              ⟨.done, true, true, true, true,
                [downloadingText, uploadingText], u.state, u.trace⟩
            | .raised e =>
              ⟨.exc e, true, true, true, true,
                [downloadingText, uploadingText], u.state, u.trace⟩

/-- Whether `handle_media` as a whole returned normally or let an exception
escape (which only happens when the error send in the `except` handler
itself raises). -/
inductive Terminal
  | returned
  | raised
deriving Repr, DecidableEq

/-- Observable result of one `handle_media` invocation after its `except`
and `finally` blocks have run. `scratchExistsAfter` tells whether the
scratch file still exists once the handler is done. -/
structure HandleResult where
  tempCreated : Bool
  scratchExistsAfter : Bool
  downloadAttempted : Bool
  uploadAttempted : Bool
  delivered : List String
  uploader : UploaderState
  utrace : UploadTrace
  terminal : Terminal
deriving Repr, DecidableEq

/-- `handle_media` (lines 148-230): run the `try` block, then the `except`
handler (lines 218-224, sending the generic error text; an exception from
that send escapes the handler), then the `finally` block (lines 225-230,
deleting the scratch file when `temp_path` is set and the file exists). -/
def handle_media (m : TgMessage) (env : HandleEnv) (s : UploaderState) :
    HandleResult :=
  let i := handle_media_try m env s
  let afterExc : List String × Terminal :=
    match i.exit with
    | .done => (i.delivered, .returned)
    | .exc msg =>
      match env.errorSend with
      | .ok => (i.delivered ++ [errorText msg], .returned)
      | .nores => (i.delivered, .returned)
      | .raised _ => (i.delivered, .raised)
  let fsAfter := if i.tempCreated && i.fsHasTemp then false else i.fsHasTemp
  ⟨i.tempCreated, fsAfter, i.downloadAttempted, i.uploadAttempted,
    afterExc.1, i.uploader, i.utrace, afterExc.2⟩

/-- The last user-facing text delivered by a `handle_media` run. -/
def finalMessage (r : HandleResult) : Option String := r.delivered.getLast?

/-! ### Helper lemmas -/

/-- Helper: in every branch of the `try` block, the scratch file exists at
the end of the block exactly when it was created — no branch deletes it
before the `finally` block runs. -/
theorem handle_media_try_fs_eq (m : TgMessage) (env : HandleEnv)
    (s : UploaderState) :
    (handle_media_try m env s).fsHasTemp = (handle_media_try m env s).tempCreated := by
  unfold handle_media_try
  dsimp only
  repeat first | rfl | split

/-- Helper: the upload body never touches the token endpoint, so its trace
reports exactly the token calls made before it. -/
theorem upload_video_body_tokenCalls (s : UploaderState) (env : UploadEnv)
    (title : String) (tc : Nat) :
    (upload_video_body s env title tc).trace.tokenCalls = tc := by
  unfold upload_video_body
  dsimp only
  repeat first | rfl | split

/-- Helper: every branch of the upload body records the create-phase request
with the title sliced to 255 characters. -/
theorem upload_video_body_sentTitle (s : UploaderState) (env : UploadEnv)
    (title : String) (tc : Nat) :
    (upload_video_body s env title tc).trace.sentTitle =
      some (pySlice 255 title) := by
  unfold upload_video_body
  dsimp only
  repeat first | rfl | split

/-- Helper: slicing keeps at most the first 255 characters, so a string
longer than 255 characters is cut to length exactly 255. -/
theorem pySlice_len_long (t : String) (h : 255 < t.data.length) :
    (pySlice 255 t).data.length = 255 := by
  show (t.data.take 255).length = 255
  rw [List.length_take]
  omega

/-- Helper: a string of at most 255 characters is left unchanged by the
slice. -/
theorem pySlice_short (t : String) (h : t.data.length ≤ 255) :
    pySlice 255 t = t := by
  cases t with
  | mk l =>
    show String.mk (l.take 255) = String.mk l
    rw [List.take_of_length_le (show l.length ≤ 255 from h)]

/-- Helper: on a run that passes validation, sends the status message,
downloads, and survives the pre-upload edit, the handler's recorded upload
trace is exactly the trace of the `upload_video` call it makes, whatever
the upload outcome and the final notification outcomes. -/
theorem handle_media_utrace (m : TgMessage) (env : HandleEnv)
    (s : UploaderState) (hrej : isRejected m = false)
    (hs : env.statusSend = SendRes.ok) (hd : env.download = OpRes.ok)
    (he : env.editUploading = OpRes.ok) :
    (handle_media m env s).utrace =
      (upload_video s env.upload (video_title m)).trace := by
  cases hpy : pyTruthy (upload_video s env.upload (video_title m)).result <;>
    cases hef : env.editFinal <;> cases hfs : env.failSend <;>
      simp [handle_media, handle_media_try, hrej, hs, hd, he, hpy, hef, hfs]

/-! ### Claims -/

/-- Claim C1: for every relay job, the local scratch file created for it is
removed on every exit path (success, validation rejection, download failure,
authentication failure, upload failure, unexpected exception): after
`handle_media` reaches any terminal state — including an exception escaping
from the `except` handler itself — the scratch file no longer exists. -/
theorem claim_c1_scratch_cleanup (m : TgMessage) (env : HandleEnv)
    (s : UploaderState) :
    (handle_media m env s).scratchExistsAfter = false := by
  have h := handle_media_try_fs_eq m env s
  show (if (handle_media_try m env s).tempCreated &&
        (handle_media_try m env s).fsHasTemp then false
      else (handle_media_try m env s).fsHasTemp) = false
  rw [h]
  cases htc : (handle_media_try m env s).tempCreated <;> simp

/-- Claim C2 fails: with a cached credential and an authorization failure in
the create phase, `upload_video` returns failure at once — the cached token
is kept (`state.access_token` unchanged, no invalidation), the token
endpoint is never called (no refresh), and the create endpoint is called
exactly once (the two-phase sequence is not re-attempted). -/
theorem claim_c2_counterexample :
    (upload_video ⟨some "tok"⟩
        ⟨AuthResult.failure "boom", CreateResult.authError "401 Unauthorized",
          TransferResult.success⟩ "My title").result = none ∧
    (upload_video ⟨some "tok"⟩
        ⟨AuthResult.failure "boom", CreateResult.authError "401 Unauthorized",
          TransferResult.success⟩ "My title").state.access_token = some "tok" ∧
    (upload_video ⟨some "tok"⟩
        ⟨AuthResult.failure "boom", CreateResult.authError "401 Unauthorized",
          TransferResult.success⟩ "My title").trace.tokenCalls = 0 ∧
    (upload_video ⟨some "tok"⟩
        ⟨AuthResult.failure "boom", CreateResult.authError "401 Unauthorized",
          TransferResult.success⟩ "My title").trace.createCalls = 1 :=
  ⟨rfl, rfl, rfl, rfl⟩

/-- Claim C2 amended: an authorization failure in either phase of the upload
is terminal immediately — with a cached credential, a create-phase
authorization failure ends the job after one create call and a
transfer-phase authorization failure ends it after one create and one
transfer call; in both cases the cached credential is not invalidated
(state unchanged) and the token endpoint is not consulted (no refresh, no
re-attempt of the sequence); moreover the token endpoint is called at most
once per `upload_video` invocation (only the initial exchange when no
credential is cached). -/
theorem claim_c2_amended (s : UploaderState) (env : UploadEnv)
    (title msg : String) (vid url : Option String) :
    (upload_video s env title).trace.tokenCalls ≤ 1 ∧
    (pyTruthy s.access_token = true → env.create = CreateResult.authError msg →
      upload_video s env title = ⟨none, s, ⟨0, 1, 0, some (pySlice 255 title)⟩⟩) ∧
    (pyTruthy s.access_token = true →
      env.create = CreateResult.response vid url → pyTruthy url = true →
      env.transfer = TransferResult.authError msg →
      upload_video s env title = ⟨none, s, ⟨0, 1, 1, some (pySlice 255 title)⟩⟩) := by
  refine ⟨?_, fun h hc => ?_, fun h hc hu htr => ?_⟩
  · unfold upload_video
    split
    · rw [upload_video_body_tokenCalls]
      exact Nat.zero_le 1
    · split
      · exact Nat.le_refl 1
      · rw [upload_video_body_tokenCalls]
  · simp [upload_video, upload_video_body, h, hc]
  · simp [upload_video, upload_video_body, h, hc, hu, htr]

/-- Witness for C2 amended at concrete inputs, one per phase: a create-phase
403 and a transfer-phase 401, both with a cached token. -/
theorem claim_c2_amended_witness :
    upload_video ⟨some "tok"⟩
        ⟨AuthResult.failure "x", CreateResult.authError "403 Forbidden",
          TransferResult.success⟩ "T" =
      ⟨none, ⟨some "tok"⟩, ⟨0, 1, 0, some (pySlice 255 "T")⟩⟩ ∧
    upload_video ⟨some "tok"⟩
        ⟨AuthResult.failure "x",
          CreateResult.response (some "x123") (some "https://upload.example/put/abc"),
          TransferResult.authError "401 Unauthorized"⟩ "T" =
      ⟨none, ⟨some "tok"⟩, ⟨0, 1, 1, some (pySlice 255 "T")⟩⟩ :=
  ⟨(claim_c2_amended ⟨some "tok"⟩
      ⟨AuthResult.failure "x", CreateResult.authError "403 Forbidden",
        TransferResult.success⟩ "T" "403 Forbidden" none none).2.1 rfl rfl,
   (claim_c2_amended ⟨some "tok"⟩
      ⟨AuthResult.failure "x",
        CreateResult.response (some "x123") (some "https://upload.example/put/abc"),
        TransferResult.authError "401 Unauthorized"⟩ "T" "401 Unauthorized"
      (some "x123") (some "https://upload.example/put/abc")).2.2 rfl rfl rfl rfl⟩

/-- Claim C3 fails: when the create-phase response carries a transfer
endpoint but no `id`, the code still proceeds to the transfer phase and, on
transfer success, returns a "public URL" built from the missing id — the
literal text `None` rendered by the f-string — instead of reporting a
protocol error. -/
theorem claim_c3_counterexample :
    (upload_video ⟨some "tok"⟩
        ⟨AuthResult.failure "boom",
          CreateResult.response none (some "https://upload.example/put/abc"),
          TransferResult.success⟩ "My title").result =
      some "https://www.dailymotion.com/video/None" ∧
    (upload_video ⟨some "tok"⟩
        ⟨AuthResult.failure "boom",
          CreateResult.response none (some "https://upload.example/put/abc"),
          TransferResult.success⟩ "My title").trace.transferCalls = 1 :=
  ⟨rfl, rfl⟩

/-- Claim C3 amended: only the transfer endpoint is validated — if the
create-phase response lacks a truthy `url`, the upload reports failure
without retrying (one create call) and without attempting the transfer;
absence of the `id` alone is not detected. -/
theorem claim_c3_amended (s : UploaderState) (env : UploadEnv) (title : String)
    (vid url : Option String) (h : pyTruthy s.access_token = true)
    (hc : env.create = CreateResult.response vid url)
    (hu : pyTruthy url = false) :
    (upload_video s env title).result = none ∧
    (upload_video s env title).trace.transferCalls = 0 ∧
    (upload_video s env title).trace.createCalls = 1 := by
  simp [upload_video, upload_video_body, h, hc, hu]

/-- Witness for C3 amended at a concrete input. -/
theorem claim_c3_amended_witness :
    (upload_video ⟨some "tok"⟩
        ⟨AuthResult.failure "x", CreateResult.response (some "x123") none,
          TransferResult.success⟩ "T").result = none ∧
    (upload_video ⟨some "tok"⟩
        ⟨AuthResult.failure "x", CreateResult.response (some "x123") none,
          TransferResult.success⟩ "T").trace.transferCalls = 0 ∧
    (upload_video ⟨some "tok"⟩
        ⟨AuthResult.failure "x", CreateResult.response (some "x123") none,
          TransferResult.success⟩ "T").trace.createCalls = 1 :=
  claim_c3_amended ⟨some "tok"⟩
    ⟨AuthResult.failure "x", CreateResult.response (some "x123") none,
      TransferResult.success⟩ "T" (some "x123") none rfl rfl rfl

/-- Claim C4 fails: when the initial status send returns `None` (all three
attempts absorbed by flood waits), the handler returns at once — the job
never allocates the scratch file and never attempts download or upload, so
a notification failure does change the job's outcome. -/
theorem claim_c4_counterexample :
    (handle_media ⟨none, none⟩
        ⟨SendRes.ok, SendRes.nores, OpRes.ok, SendRes.ok, OpRes.ok,
          ⟨AuthResult.success (some "tok"),
            CreateResult.response (some "x123") (some "https://upload.example/put/abc"),
            TransferResult.success⟩,
          OpRes.ok, SendRes.ok, SendRes.ok⟩ ⟨none⟩).downloadAttempted = false ∧
    (handle_media ⟨none, none⟩
        ⟨SendRes.ok, SendRes.nores, OpRes.ok, SendRes.ok, OpRes.ok,
          ⟨AuthResult.success (some "tok"),
            CreateResult.response (some "x123") (some "https://upload.example/put/abc"),
            TransferResult.success⟩,
          OpRes.ok, SendRes.ok, SendRes.ok⟩ ⟨none⟩).uploadAttempted = false ∧
    (handle_media ⟨none, none⟩
        ⟨SendRes.ok, SendRes.nores, OpRes.ok, SendRes.ok, OpRes.ok,
          ⟨AuthResult.success (some "tok"),
            CreateResult.response (some "x123") (some "https://upload.example/put/abc"),
            TransferResult.success⟩,
          OpRes.ok, SendRes.ok, SendRes.ok⟩ ⟨none⟩).tempCreated = false ∧
    (handle_media ⟨none, none⟩
        ⟨SendRes.ok, SendRes.nores, OpRes.ok, SendRes.ok, OpRes.ok,
          ⟨AuthResult.success (some "tok"),
            CreateResult.response (some "x123") (some "https://upload.example/put/abc"),
            TransferResult.success⟩,
          OpRes.ok, SendRes.ok, SendRes.ok⟩ ⟨none⟩).terminal = Terminal.returned :=
  ⟨rfl, rfl, rfl, rfl⟩

/-- Claim C4 amended: the job is gated on its status notifications — if the
initial status send yields `None` the handler returns before allocating
storage, downloading, or uploading; if the initial status send raises, the
job likewise never allocates storage, downloads, or uploads, and is
diverted to the generic error path (when the error send succeeds, the final
message is the generic error text); and if the pre-upload status edit
raises, the upload is never attempted and the job is diverted to the
generic error path as well. -/
theorem claim_c4_amended (m : TgMessage) (env : HandleEnv) (s : UploaderState)
    (e : String) (hrej : isRejected m = false) :
    (env.statusSend = SendRes.nores →
      (handle_media m env s).tempCreated = false ∧
      (handle_media m env s).downloadAttempted = false ∧
      (handle_media m env s).uploadAttempted = false) ∧
    (env.statusSend = SendRes.raised e →
      (handle_media m env s).tempCreated = false ∧
      (handle_media m env s).downloadAttempted = false ∧
      (handle_media m env s).uploadAttempted = false ∧
      (env.errorSend = SendRes.ok →
        finalMessage (handle_media m env s) = some (errorText e))) ∧
    (env.statusSend = SendRes.ok → env.download = OpRes.ok →
      env.editUploading = OpRes.err e →
      (handle_media m env s).uploadAttempted = false ∧
      (env.errorSend = SendRes.ok →
        finalMessage (handle_media m env s) = some (errorText e))) := by
  refine ⟨fun hs => ?_, fun hs => ?_, fun hs hd he => ?_⟩
  · simp [handle_media, handle_media_try, hrej, hs]
  · cases hes : env.errorSend <;>
      simp [handle_media, handle_media_try, finalMessage, hrej, hs, hes]
  · cases hes : env.errorSend <;>
      simp [handle_media, handle_media_try, finalMessage, hrej, hs, hd, he, hes]

/-- Witness for C4 amended at concrete inputs, one per gating behaviour: an
initial send returning `None`, an initial send raising, and a raising
pre-upload edit. -/
theorem claim_c4_amended_witness :
    ((handle_media ⟨none, some "My Clip"⟩
        ⟨SendRes.ok, SendRes.nores, OpRes.ok, SendRes.ok, OpRes.ok,
          ⟨AuthResult.failure "x", CreateResult.authError "a",
            TransferResult.success⟩,
          OpRes.ok, SendRes.ok, SendRes.ok⟩ ⟨none⟩).tempCreated = false ∧
      (handle_media ⟨none, some "My Clip"⟩
        ⟨SendRes.ok, SendRes.nores, OpRes.ok, SendRes.ok, OpRes.ok,
          ⟨AuthResult.failure "x", CreateResult.authError "a",
            TransferResult.success⟩,
          OpRes.ok, SendRes.ok, SendRes.ok⟩ ⟨none⟩).downloadAttempted = false ∧
      (handle_media ⟨none, some "My Clip"⟩
        ⟨SendRes.ok, SendRes.nores, OpRes.ok, SendRes.ok, OpRes.ok,
          ⟨AuthResult.failure "x", CreateResult.authError "a",
            TransferResult.success⟩,
          OpRes.ok, SendRes.ok, SendRes.ok⟩ ⟨none⟩).uploadAttempted = false) ∧
    ((handle_media ⟨none, none⟩
        ⟨SendRes.ok, SendRes.raised "boom", OpRes.ok, SendRes.ok, OpRes.ok,
          ⟨AuthResult.failure "x", CreateResult.authError "a",
            TransferResult.success⟩,
          OpRes.ok, SendRes.ok, SendRes.ok⟩ ⟨none⟩).tempCreated = false ∧
      (handle_media ⟨none, none⟩
        ⟨SendRes.ok, SendRes.raised "boom", OpRes.ok, SendRes.ok, OpRes.ok,
          ⟨AuthResult.failure "x", CreateResult.authError "a",
            TransferResult.success⟩,
          OpRes.ok, SendRes.ok, SendRes.ok⟩ ⟨none⟩).downloadAttempted = false ∧
      (handle_media ⟨none, none⟩
        ⟨SendRes.ok, SendRes.raised "boom", OpRes.ok, SendRes.ok, OpRes.ok,
          ⟨AuthResult.failure "x", CreateResult.authError "a",
            TransferResult.success⟩,
          OpRes.ok, SendRes.ok, SendRes.ok⟩ ⟨none⟩).uploadAttempted = false ∧
      ((⟨SendRes.ok, SendRes.raised "boom", OpRes.ok, SendRes.ok, OpRes.ok,
          ⟨AuthResult.failure "x", CreateResult.authError "a",
            TransferResult.success⟩,
          OpRes.ok, SendRes.ok, SendRes.ok⟩ : HandleEnv).errorSend = SendRes.ok →
        finalMessage (handle_media ⟨none, none⟩
          ⟨SendRes.ok, SendRes.raised "boom", OpRes.ok, SendRes.ok, OpRes.ok,
            ⟨AuthResult.failure "x", CreateResult.authError "a",
              TransferResult.success⟩,
            OpRes.ok, SendRes.ok, SendRes.ok⟩ ⟨none⟩) = some (errorText "boom"))) ∧
    ((handle_media ⟨none, none⟩
        ⟨SendRes.ok, SendRes.ok, OpRes.ok, SendRes.ok, OpRes.err "edit failed",
          ⟨AuthResult.failure "x", CreateResult.authError "a",
            TransferResult.success⟩,
          OpRes.ok, SendRes.ok, SendRes.ok⟩ ⟨none⟩).uploadAttempted = false ∧
      ((⟨SendRes.ok, SendRes.ok, OpRes.ok, SendRes.ok, OpRes.err "edit failed",
          ⟨AuthResult.failure "x", CreateResult.authError "a",
            TransferResult.success⟩,
          OpRes.ok, SendRes.ok, SendRes.ok⟩ : HandleEnv).errorSend = SendRes.ok →
        finalMessage (handle_media ⟨none, none⟩
          ⟨SendRes.ok, SendRes.ok, OpRes.ok, SendRes.ok, OpRes.err "edit failed",
            ⟨AuthResult.failure "x", CreateResult.authError "a",
              TransferResult.success⟩,
            OpRes.ok, SendRes.ok, SendRes.ok⟩ ⟨none⟩) =
          some (errorText "edit failed"))) :=
  ⟨(claim_c4_amended ⟨none, some "My Clip"⟩
      ⟨SendRes.ok, SendRes.nores, OpRes.ok, SendRes.ok, OpRes.ok,
        ⟨AuthResult.failure "x", CreateResult.authError "a",
          TransferResult.success⟩,
        OpRes.ok, SendRes.ok, SendRes.ok⟩ ⟨none⟩ "unused" rfl).1 rfl,
   (claim_c4_amended ⟨none, none⟩
      ⟨SendRes.ok, SendRes.raised "boom", OpRes.ok, SendRes.ok, OpRes.ok,
        ⟨AuthResult.failure "x", CreateResult.authError "a",
          TransferResult.success⟩,
        OpRes.ok, SendRes.ok, SendRes.ok⟩ ⟨none⟩ "boom" rfl).2.1 rfl,
   (claim_c4_amended ⟨none, none⟩
      ⟨SendRes.ok, SendRes.ok, OpRes.ok, SendRes.ok, OpRes.err "edit failed",
        ⟨AuthResult.failure "x", CreateResult.authError "a",
          TransferResult.success⟩,
        OpRes.ok, SendRes.ok, SendRes.ok⟩ ⟨none⟩ "edit failed" rfl).2.2 rfl rfl rfl⟩

/-- Claim C5: evaluation at the spec's success scenario. For a plain video
attachment (no document) with caption "My Clip", whose create phase returns
id "x123" and a valid transfer endpoint and whose transfer succeeds, the
final message contains the public URL but does NOT contain "My Clip":
line 201 parses as `(caption or file_name) if document else default`, so
for non-document messages the caption is ignored and the title becomes
"Uploaded from Telegram". -/
theorem claim_c5_caption_lost :
    pyContains ((finalMessage (handle_media ⟨none, some "My Clip"⟩
        ⟨SendRes.ok, SendRes.ok, OpRes.ok, SendRes.ok, OpRes.ok,
          ⟨AuthResult.success (some "tok"),
            CreateResult.response (some "x123") (some "https://upload.example/put/abc"),
            TransferResult.success⟩,
          OpRes.ok, SendRes.ok, SendRes.ok⟩ ⟨none⟩)).getD "")
      "https://www.dailymotion.com/video/x123" = true ∧
    pyContains ((finalMessage (handle_media ⟨none, some "My Clip"⟩
        ⟨SendRes.ok, SendRes.ok, OpRes.ok, SendRes.ok, OpRes.ok,
          ⟨AuthResult.success (some "tok"),
            CreateResult.response (some "x123") (some "https://upload.example/put/abc"),
            TransferResult.success⟩,
          OpRes.ok, SendRes.ok, SendRes.ok⟩ ⟨none⟩)).getD "")
      "My Clip" = false ∧
    video_title ⟨none, some "My Clip"⟩ = "Uploaded from Telegram" :=
  ⟨rfl, rfl, rfl⟩

/-- Claim C6 fails: an upload failure whose destination-service error text
contains the quota markers "quota" and "limit" still produces the fixed
failure message, which contains neither marker and no limit-reached hint —
`upload_video` swallows the exception text entirely. -/
theorem claim_c6_counterexample :
    finalMessage (handle_media ⟨none, none⟩
        ⟨SendRes.ok, SendRes.ok, OpRes.ok, SendRes.ok, OpRes.ok,
          ⟨AuthResult.failure "x",
            CreateResult.response (some "x123") (some "https://upload.example/put/abc"),
            TransferResult.otherError "upload quota exceeded: limit reached"⟩,
          OpRes.ok, SendRes.ok, SendRes.ok⟩ ⟨some "tok"⟩) = some upFailText ∧
    pyContains upFailText "limit" = false ∧
    pyContains upFailText "quota" = false :=
  ⟨rfl, rfl, rfl⟩

/-- Claim C6 amended: every upload failure produces the same fixed
user-facing message, independent of the failure's error text; no quota
marker is inspected and no limit-reached hint is ever added. -/
theorem claim_c6_amended (m : TgMessage) (env : HandleEnv) (s : UploaderState)
    (hrej : isRejected m = false) (hs : env.statusSend = SendRes.ok)
    (hd : env.download = OpRes.ok) (he : env.editUploading = OpRes.ok)
    (hup : pyTruthy (upload_video s env.upload (video_title m)).result = false)
    (hf : env.failSend = SendRes.ok) :
    finalMessage (handle_media m env s) = some upFailText := by
  simp [handle_media, handle_media_try, finalMessage, hrej, hs, hd, he, hup, hf]

/-- Witness for C6 amended at a concrete input carrying a quota marker. -/
theorem claim_c6_amended_witness :
    finalMessage (handle_media ⟨none, none⟩
        ⟨SendRes.ok, SendRes.ok, OpRes.ok, SendRes.ok, OpRes.ok,
          ⟨AuthResult.failure "x",
            CreateResult.response (some "x123") (some "https://upload.example/put/abc"),
            TransferResult.otherError "quota limit"⟩,
          OpRes.ok, SendRes.ok, SendRes.ok⟩ ⟨some "tok"⟩) = some upFailText :=
  claim_c6_amended ⟨none, none⟩
    ⟨SendRes.ok, SendRes.ok, OpRes.ok, SendRes.ok, OpRes.ok,
      ⟨AuthResult.failure "x",
        CreateResult.response (some "x123") (some "https://upload.example/put/abc"),
        TransferResult.otherError "quota limit"⟩,
      OpRes.ok, SendRes.ok, SendRes.ok⟩ ⟨some "tok"⟩ rfl rfl rfl rfl rfl rfl

/-- Claim C7: a credential, once obtained, is cached on the shared uploader
and reused without re-authenticating — for two sequential successful upload
jobs starting from an empty cache, the first job performs exactly one
token-endpoint call and caches the token, and the second job performs none
and still succeeds. -/
theorem claim_c7_credential_reuse (t u1 u2 : String) (vid1 vid2 : Option String)
    (env1 env2 : UploadEnv) (title1 title2 : String)
    (ht : pyTruthy (some t) = true)
    (h1a : env1.auth = AuthResult.success (some t))
    (h1c : env1.create = CreateResult.response vid1 (some u1))
    (hu1 : pyTruthy (some u1) = true)
    (h1t : env1.transfer = TransferResult.success)
    (h2c : env2.create = CreateResult.response vid2 (some u2))
    (hu2 : pyTruthy (some u2) = true)
    (h2t : env2.transfer = TransferResult.success) :
    (upload_video ⟨none⟩ env1 title1).trace.tokenCalls = 1 ∧
    (upload_video ⟨none⟩ env1 title1).result.isSome = true ∧
    (upload_video ⟨none⟩ env1 title1).state.access_token = some t ∧
    (upload_video (upload_video ⟨none⟩ env1 title1).state env2 title2).trace.tokenCalls = 0 ∧
    (upload_video (upload_video ⟨none⟩ env1 title1).state env2 title2).result.isSome = true := by
  have hu1a : ¬u1 = "" := by simpa [pyTruthy] using hu1
  have hu2a : ¬u2 = "" := by simpa [pyTruthy] using hu2
  have hr1 : upload_video ⟨none⟩ env1 title1 =
      ⟨some ("https://www.dailymotion.com/video/" ++ pyFmt vid1), ⟨some t⟩,
        ⟨1, 1, 1, some (pySlice 255 title1)⟩⟩ := by
    simp [upload_video, upload_video_body, authenticate, pyTruthy, h1a, h1c,
      h1t, hu1a]
  have hr2 : upload_video ⟨some t⟩ env2 title2 =
      ⟨some ("https://www.dailymotion.com/video/" ++ pyFmt vid2), ⟨some t⟩,
        ⟨0, 1, 1, some (pySlice 255 title2)⟩⟩ := by
    have hta : ¬t = "" := by simpa [pyTruthy] using ht
    simp [upload_video, upload_video_body, pyTruthy, hta, h2c, h2t, hu2a]
  rw [hr1]
  simp [hr2]

/-- Witness for C7 at concrete inputs. -/
theorem claim_c7_credential_reuse_witness :
    (upload_video ⟨none⟩
        ⟨AuthResult.success (some "tok"),
          CreateResult.response (some "x123") (some "https://upload.example/put/abc"),
          TransferResult.success⟩ "First").trace.tokenCalls = 1 ∧
    (upload_video ⟨none⟩
        ⟨AuthResult.success (some "tok"),
          CreateResult.response (some "x123") (some "https://upload.example/put/abc"),
          TransferResult.success⟩ "First").result.isSome = true ∧
    (upload_video ⟨none⟩
        ⟨AuthResult.success (some "tok"),
          CreateResult.response (some "x123") (some "https://upload.example/put/abc"),
          TransferResult.success⟩ "First").state.access_token = some "tok" ∧
    (upload_video (upload_video ⟨none⟩
        ⟨AuthResult.success (some "tok"),
          CreateResult.response (some "x123") (some "https://upload.example/put/abc"),
          TransferResult.success⟩ "First").state
        ⟨AuthResult.failure "never called",
          CreateResult.response (some "y456") (some "https://upload.example/put/def"),
          TransferResult.success⟩ "Second").trace.tokenCalls = 0 ∧
    (upload_video (upload_video ⟨none⟩
        ⟨AuthResult.success (some "tok"),
          CreateResult.response (some "x123") (some "https://upload.example/put/abc"),
          TransferResult.success⟩ "First").state
        ⟨AuthResult.failure "never called",
          CreateResult.response (some "y456") (some "https://upload.example/put/def"),
          TransferResult.success⟩ "Second").result.isSome = true :=
  claim_c7_credential_reuse "tok" "https://upload.example/put/abc"
    "https://upload.example/put/def" (some "x123") (some "y456")
    ⟨AuthResult.success (some "tok"),
      CreateResult.response (some "x123") (some "https://upload.example/put/abc"),
      TransferResult.success⟩
    ⟨AuthResult.failure "never called",
      CreateResult.response (some "y456") (some "https://upload.example/put/def"),
      TransferResult.success⟩ "First" "Second" rfl rfl rfl rfl rfl rfl rfl rfl

/-- Claim C8: an attachment that fails video validation (document whose MIME
type is not a video type and whose file name has no known video extension)
is rejected before any storage is allocated: no scratch file is created,
neither download nor upload is attempted, no destination-service call is
made, and — when the rejection send succeeds — the final message is the
validation-rejection text. -/
theorem claim_c8_validation_rejection (m : TgMessage) (env : HandleEnv)
    (s : UploaderState) (d : TgDocument) (hd : m.document = some d)
    (hm : pyStartsWith d.mime_type "video/" = false)
    (hx : (videoExts.any fun ext => pyEndsWith d.file_name ext) = false) :
    (handle_media m env s).tempCreated = false ∧
    (handle_media m env s).downloadAttempted = false ∧
    (handle_media m env s).uploadAttempted = false ∧
    (handle_media m env s).utrace = emptyTrace ∧
    (env.rejectSend = SendRes.ok →
      finalMessage (handle_media m env s) = some rejectText) := by
  have hrej : isRejected m = true := by
    simp [isRejected, hd, hm, hx]
  cases henv : env.rejectSend <;>
    simp [handle_media, handle_media_try, finalMessage, hrej, henv]

/-- Witness for C8 at the spec's PDF rejection scenario. -/
theorem claim_c8_validation_rejection_witness :
    (handle_media ⟨some ⟨"application/pdf", "report.pdf"⟩, none⟩
        ⟨SendRes.ok, SendRes.ok, OpRes.ok, SendRes.ok, OpRes.ok,
          ⟨AuthResult.failure "x", CreateResult.authError "a",
            TransferResult.success⟩,
          OpRes.ok, SendRes.ok, SendRes.ok⟩ ⟨none⟩).tempCreated = false ∧
    (handle_media ⟨some ⟨"application/pdf", "report.pdf"⟩, none⟩
        ⟨SendRes.ok, SendRes.ok, OpRes.ok, SendRes.ok, OpRes.ok,
          ⟨AuthResult.failure "x", CreateResult.authError "a",
            TransferResult.success⟩,
          OpRes.ok, SendRes.ok, SendRes.ok⟩ ⟨none⟩).downloadAttempted = false ∧
    (handle_media ⟨some ⟨"application/pdf", "report.pdf"⟩, none⟩
        ⟨SendRes.ok, SendRes.ok, OpRes.ok, SendRes.ok, OpRes.ok,
          ⟨AuthResult.failure "x", CreateResult.authError "a",
            TransferResult.success⟩,
          OpRes.ok, SendRes.ok, SendRes.ok⟩ ⟨none⟩).uploadAttempted = false ∧
    (handle_media ⟨some ⟨"application/pdf", "report.pdf"⟩, none⟩
        ⟨SendRes.ok, SendRes.ok, OpRes.ok, SendRes.ok, OpRes.ok,
          ⟨AuthResult.failure "x", CreateResult.authError "a",
            TransferResult.success⟩,
          OpRes.ok, SendRes.ok, SendRes.ok⟩ ⟨none⟩).utrace = emptyTrace ∧
    ((⟨SendRes.ok, SendRes.ok, OpRes.ok, SendRes.ok, OpRes.ok,
          ⟨AuthResult.failure "x", CreateResult.authError "a",
            TransferResult.success⟩,
          OpRes.ok, SendRes.ok, SendRes.ok⟩ : HandleEnv).rejectSend = SendRes.ok →
      finalMessage (handle_media ⟨some ⟨"application/pdf", "report.pdf"⟩, none⟩
        ⟨SendRes.ok, SendRes.ok, OpRes.ok, SendRes.ok, OpRes.ok,
          ⟨AuthResult.failure "x", CreateResult.authError "a",
            TransferResult.success⟩,
          OpRes.ok, SendRes.ok, SendRes.ok⟩ ⟨none⟩) = some rejectText) :=
  claim_c8_validation_rejection ⟨some ⟨"application/pdf", "report.pdf"⟩, none⟩
    ⟨SendRes.ok, SendRes.ok, OpRes.ok, SendRes.ok, OpRes.ok,
      ⟨AuthResult.failure "x", CreateResult.authError "a",
        TransferResult.success⟩,
      OpRes.ok, SendRes.ok, SendRes.ok⟩ ⟨none⟩
    ⟨"application/pdf", "report.pdf"⟩ rfl rfl rfl

/-- Claim C9: when the transport signals a flood wait of `N` seconds on the
first attempt and the retry succeeds, `safe_send_message` succeeds, and the
single sleep performed before the second attempt lasts `N + 2` seconds — at
least the signaled `N`. -/
theorem claim_c9_floodwait_backoff (att : Nat → AttemptRes) (N : Nat)
    (h0 : att 0 = AttemptRes.flood N) (h1 : att 1 = AttemptRes.ok) :
    safe_send_message att = (SendLoopRes.sent, [N + 2]) ∧ N ≤ N + 2 := by
  constructor
  · simp [safe_send_message, sendGo, h0, h1]
  · exact Nat.le_add_right N 2

/-- Witness for C9 with a signaled wait of 5 seconds. -/
theorem claim_c9_floodwait_backoff_witness :
    safe_send_message (fun i => if i = 0 then AttemptRes.flood 5 else AttemptRes.ok) =
      (SendLoopRes.sent, [7]) ∧ 5 ≤ 7 :=
  claim_c9_floodwait_backoff
    (fun i => if i = 0 then AttemptRes.flood 5 else AttemptRes.ok) 5 rfl rfl

/-- Claim C10 fails: the title sent in the create-phase request is not the
caption — for a plain video message with the 7-character caption "My Clip"
(well under 255 characters), the title sent is "Uploaded from Telegram",
not the caption unmodified, because line 201 discards captions of
non-document messages. -/
theorem claim_c10_counterexample :
    (handle_media ⟨none, some "My Clip"⟩
        ⟨SendRes.ok, SendRes.ok, OpRes.ok, SendRes.ok, OpRes.ok,
          ⟨AuthResult.failure "x", CreateResult.authError "a",
            TransferResult.success⟩,
          OpRes.ok, SendRes.ok, SendRes.ok⟩ ⟨some "tok"⟩).utrace.sentTitle =
      some "Uploaded from Telegram" ∧
    (handle_media ⟨none, some "My Clip"⟩
        ⟨SendRes.ok, SendRes.ok, OpRes.ok, SendRes.ok, OpRes.ok,
          ⟨AuthResult.failure "x", CreateResult.authError "a",
            TransferResult.success⟩,
          OpRes.ok, SendRes.ok, SendRes.ok⟩ ⟨some "tok"⟩).utrace.sentTitle ≠
      some "My Clip" :=
  ⟨rfl, by decide⟩

/-- Claim C10 amended: the title sent in the create-phase request is the
computed job title sliced to 255 characters, where the computed title is
the caption only for document attachments with a nonempty caption and is
the fixed text "Uploaded from Telegram" for plain video messages (their
caption is ignored); the slice cuts titles longer than 255 characters to
exactly their first 255 characters and leaves shorter ones unmodified. -/
theorem claim_c10_amended (m : TgMessage) (env : HandleEnv)
    (s : UploaderState) (d : TgDocument) (c : String)
    (hrej : isRejected m = false) (hs : env.statusSend = SendRes.ok)
    (hd : env.download = OpRes.ok) (he : env.editUploading = OpRes.ok)
    (ht : pyTruthy s.access_token = true) :
    (handle_media m env s).utrace.sentTitle =
      some (pySlice 255 (video_title m)) ∧
    (m.document = some d → m.caption = some c → ¬c = "" →
      video_title m = c) ∧
    (m.document = none → video_title m = "Uploaded from Telegram") ∧
    (pySlice 255 (video_title m)).data = (video_title m).data.take 255 ∧
    (255 < (video_title m).data.length →
      (pySlice 255 (video_title m)).data.length = 255) ∧
    ((video_title m).data.length ≤ 255 →
      pySlice 255 (video_title m) = video_title m) := by
  refine ⟨?_, fun h1 h2 h3 => ?_, fun h1 => ?_, rfl,
    fun hl => pySlice_len_long _ hl, fun hl => pySlice_short _ hl⟩
  · rw [handle_media_utrace m env s hrej hs hd he]
    simp only [upload_video, ht, if_true]
    exact upload_video_body_sentTitle s env.upload (video_title m) 0
  · simp [video_title, h1, h2, h3]
  · simp [video_title, h1]

/-- Witness for C10 amended at concrete inputs: a document message with
caption "My Clip" whose sent title is the caption unmodified, and a
document message with a 256-character caption whose sent title has exactly
255 characters. -/
theorem claim_c10_amended_witness :
    ((handle_media ⟨some ⟨"video/mp4", "clip.mp4"⟩, some "My Clip"⟩
        ⟨SendRes.ok, SendRes.ok, OpRes.ok, SendRes.ok, OpRes.ok,
          ⟨AuthResult.failure "x", CreateResult.authError "a",
            TransferResult.success⟩,
          OpRes.ok, SendRes.ok, SendRes.ok⟩ ⟨some "tok"⟩).utrace.sentTitle =
        some (pySlice 255
          (video_title ⟨some ⟨"video/mp4", "clip.mp4"⟩, some "My Clip"⟩)) ∧
      video_title ⟨some ⟨"video/mp4", "clip.mp4"⟩, some "My Clip"⟩ = "My Clip" ∧
      pySlice 255 (video_title ⟨some ⟨"video/mp4", "clip.mp4"⟩, some "My Clip"⟩) =
        video_title ⟨some ⟨"video/mp4", "clip.mp4"⟩, some "My Clip"⟩) ∧
    (pySlice 255 (video_title ⟨some ⟨"video/mp4", "clip.mp4"⟩,
        some (String.mk (List.replicate 256 'a'))⟩)).data.length = 255 :=
  ⟨⟨(claim_c10_amended ⟨some ⟨"video/mp4", "clip.mp4"⟩, some "My Clip"⟩
      ⟨SendRes.ok, SendRes.ok, OpRes.ok, SendRes.ok, OpRes.ok,
        ⟨AuthResult.failure "x", CreateResult.authError "a",
          TransferResult.success⟩,
        OpRes.ok, SendRes.ok, SendRes.ok⟩ ⟨some "tok"⟩
      ⟨"video/mp4", "clip.mp4"⟩ "My Clip" rfl rfl rfl rfl rfl).1,
    (claim_c10_amended ⟨some ⟨"video/mp4", "clip.mp4"⟩, some "My Clip"⟩
      ⟨SendRes.ok, SendRes.ok, OpRes.ok, SendRes.ok, OpRes.ok,
        ⟨AuthResult.failure "x", CreateResult.authError "a",
          TransferResult.success⟩,
        OpRes.ok, SendRes.ok, SendRes.ok⟩ ⟨some "tok"⟩
      ⟨"video/mp4", "clip.mp4"⟩ "My Clip" rfl rfl rfl rfl rfl).2.1
      rfl rfl (by decide),
    (claim_c10_amended ⟨some ⟨"video/mp4", "clip.mp4"⟩, some "My Clip"⟩
      ⟨SendRes.ok, SendRes.ok, OpRes.ok, SendRes.ok, OpRes.ok,
        ⟨AuthResult.failure "x", CreateResult.authError "a",
          TransferResult.success⟩,
        OpRes.ok, SendRes.ok, SendRes.ok⟩ ⟨some "tok"⟩
      ⟨"video/mp4", "clip.mp4"⟩ "My Clip" rfl rfl rfl rfl rfl).2.2.2.2.2
      (by decide)⟩,
   (claim_c10_amended ⟨some ⟨"video/mp4", "clip.mp4"⟩,
        some (String.mk (List.replicate 256 'a'))⟩
      ⟨SendRes.ok, SendRes.ok, OpRes.ok, SendRes.ok, OpRes.ok,
        ⟨AuthResult.failure "x", CreateResult.authError "a",
          TransferResult.success⟩,
        OpRes.ok, SendRes.ok, SendRes.ok⟩ ⟨some "tok"⟩
      ⟨"video/mp4", "clip.mp4"⟩ "" rfl rfl rfl rfl rfl).2.2.2.2.1
      (by
        show 255 < (List.replicate 256 'a').length
        rw [List.length_replicate]
        omega)⟩

end TgRelay
